import Mathlib

set_option maxRecDepth 40000

/-!
Verification of the Jasmin static HTTP server (src/main.rs).

The request-handling pipeline and its helpers are shallowly embedded as
Lean functions.  Filesystem access is modelled by an oracle structure
`FS` whose fields answer the individual system calls the source makes
(`canonicalize`, `fs::metadata(..).modified()`, `exists`, `is_file`,
`fs::read`, `fs::read_dir`).  Each embedded function additionally
returns the list of oracle calls it performed (an `FsEvent` trace) so
that "no disk read happened" is a provable statement.  Machine strings
are Lean `String`s (lists of unicode scalar values); raw socket bytes
are `List Nat`, decoded by an explicit UTF-8 decoder mirroring
`String::from_utf8`.
-/

/-- The subset of `std::io::ErrorKind` the source program inspects,
plus `other` for every kind it does not distinguish. -/
inductive IOErrorKind where
  | notFound
  | permissionDenied
  | interrupted
  | wouldBlock
  | invalidData
  | other
deriving DecidableEq

instance {ε α : Type} [DecidableEq ε] [DecidableEq α] : DecidableEq (Except ε α) :=
  fun x y =>
    match x, y with
    | .error a, .error b =>
      if h : a = b then .isTrue (h ▸ rfl)
      else .isFalse (fun hc => h (by injection hc))
    | .ok a, .ok b =>
      if h : a = b then .isTrue (h ▸ rfl)
      else .isFalse (fun hc => h (by injection hc))
    | .error _, .ok _ => .isFalse (fun hc => Except.noConfusion hc)
    | .ok _, .error _ => .isFalse (fun hc => Except.noConfusion hc)

/-- `error.kind() == ErrorKind::Interrupted` (src/main.rs, `interrupted`). -/
def interrupted (e : IOErrorKind) : Bool := e = .interrupted

/-- `error.kind() == ErrorKind::WouldBlock` (src/main.rs, `would_block`). -/
def would_block (e : IOErrorKind) : Bool := e = .wouldBlock

/-- `error.kind() == ErrorKind::PermissionDenied` (src/main.rs, `permission_denied`). -/
def permission_denied (e : IOErrorKind) : Bool := e = .permissionDenied

/-- `error.kind() == ErrorKind::NotFound` (src/main.rs, `not_found`). -/
def not_found (e : IOErrorKind) : Bool := e = .notFound

/-- `const REQUEST_SIZE: usize = 1024` (src/main.rs). -/
def REQUEST_SIZE : Nat := 1024

/- ## String helpers mirroring the Rust std string operations used -/

/-- Split a character list at every occurrence of `c`
(`str::split(c)` semantics: `"a  b"` gives `["a", "", "b"]`, `""` gives `[""]`). -/
def splitOnCharAux (c : Char) : List Char → List Char → List String
  | [], acc => [String.mk acc.reverse]
  | x :: rest, acc =>
    if x = c then String.mk acc.reverse :: splitOnCharAux c rest []
    else splitOnCharAux c rest (x :: acc)

/-- `str::split(c)` on a string. -/
def splitOnChar (c : Char) (s : String) : List String :=
  splitOnCharAux c s.data []

/-- Remove one trailing carriage return, as `str::lines` does per line. -/
def stripCr (s : String) : String :=
  match s.data.getLast? with
  | some c => if c = '\r' then String.mk s.data.dropLast else s
  | none => s

/-- Drop a final empty piece produced by a trailing separator. -/
def dropLastEmpty (l : List String) : List String :=
  match l.getLast? with
  | some s => if s = "" then l.dropLast else l
  | none => l

/-- `str::lines`: split on newlines, a final line terminator is optional,
each line loses one trailing carriage return; the empty string has no lines. -/
def rustLines (s : String) : List String :=
  (dropLastEmpty (splitOnChar '\n' s)).map stripCr

/-- `str::trim_start_matches('/')`. -/
def trimStartSlashes (s : String) : String :=
  String.mk (s.data.dropWhile (fun c => c = '/'))

/-- `slice::join` on strings (`Vec<String>::join(sep)`). -/
def joinWithSep (sep : String) : List String → String
  | [] => ""
  | [x] => x
  | x :: rest => x ++ sep ++ joinWithSep sep rest

/-- `Path::join` for a relative right operand: push with a separator. -/
def joinPath (base p : String) : String :=
  if base.data.getLastD ' ' = '/' then base ++ p else base ++ "/" ++ p

/-- The components of a unix path (empty pieces dropped, so the
canonical absolute paths `"/a/b"` and `"/"` give `["a","b"]` and `[]`). -/
def pathComponents (s : String) : List String :=
  (splitOnChar '/' s).filter (fun c => ¬ c = "")

/-- Component-wise list prefix test (Boolean). -/
def listIsPrefix : List String → List String → Bool
  | [], _ => true
  | _ :: _, [] => false
  | a :: as, b :: bs => if a = b then listIsPrefix as bs else false

/-- `Path::starts_with`: component-wise prefix, not byte prefix. -/
def pathStartsWith (full base : String) : Bool :=
  listIsPrefix (pathComponents base) (pathComponents full)

/- ## UTF-8 encoding and decoding -/

/-- Encode one unicode scalar value as UTF-8 bytes. -/
def utf8EncodeChar (c : Char) : List Nat :=
  let n := c.toNat
  if n < 0x80 then [n]
  else if n < 0x800 then [0xC0 + n / 0x40, 0x80 + n % 0x40]
  else if n < 0x10000 then
    [0xE0 + n / 0x1000, 0x80 + (n / 0x40) % 0x40, 0x80 + n % 0x40]
  else
    [0xF0 + n / 0x40000, 0x80 + (n / 0x1000) % 0x40, 0x80 + (n / 0x40) % 0x40, 0x80 + n % 0x40]

/-- Encode a string as its UTF-8 bytes (`str::as_bytes`). -/
def strToBytes (s : String) : List Nat :=
  (s.data.map utf8EncodeChar).flatten

/-- Is the byte a UTF-8 continuation byte? -/
def isCont (b : Nat) : Bool := 0x80 ≤ b ∧ b ≤ 0xBF

/-- Strict UTF-8 decoding of a byte list, mirroring the validation done by
`String::from_utf8` (rejects overlong forms, surrogates and values above
U+10FFFF); `none` means `FromUtf8Error`. -/
def utf8Decode : List Nat → Option (List Char)
  | [] => some []
  | b1 :: rest =>
    if b1 ≤ 0x7F then
      match utf8Decode rest with
      | some cs => some (Char.ofNat b1 :: cs)
      | none => none
    else if b1 ≤ 0xC1 then none
    else if b1 ≤ 0xDF then
      match rest with
      | b2 :: rest2 =>
        if isCont b2 then
          match utf8Decode rest2 with
          | some cs => some (Char.ofNat ((b1 - 0xC0) * 0x40 + (b2 - 0x80)) :: cs)
          | none => none
        else none
      | [] => none
    else if b1 ≤ 0xEF then
      match rest with
      | b2 :: b3 :: rest3 =>
        if (if b1 = 0xE0 then (0xA0 ≤ b2 ∧ b2 ≤ 0xBF : Bool)
            else if b1 = 0xED then (0x80 ≤ b2 ∧ b2 ≤ 0x9F : Bool)
            else isCont b2) ∧ isCont b3 then
          match utf8Decode rest3 with
          | some cs =>
            some (Char.ofNat ((b1 - 0xE0) * 0x1000 + (b2 - 0x80) * 0x40 + (b3 - 0x80)) :: cs)
          | none => none
        else none
      | _ => none
    else if b1 ≤ 0xF4 then
      match rest with
      | b2 :: b3 :: b4 :: rest4 =>
        if (if b1 = 0xF0 then (0x90 ≤ b2 ∧ b2 ≤ 0xBF : Bool)
            else if b1 = 0xF4 then (0x80 ≤ b2 ∧ b2 ≤ 0x8F : Bool)
            else isCont b2) ∧ isCont b3 ∧ isCont b4 then
          match utf8Decode rest4 with
          | some cs =>
            some (Char.ofNat
              ((b1 - 0xF0) * 0x40000 + (b2 - 0x80) * 0x1000 + (b3 - 0x80) * 0x40 + (b4 - 0x80)) :: cs)
          | none => none
        else none
      | _ => none
    else none

/- ## Request parsing (src/main.rs, `parse_request`) -/

/-- `parse_request`: decode the raw bytes as UTF-8, take the first line,
and return its second space-delimited token; every failure is
`ErrorKind::InvalidData`. -/
def parse_request (data : List Nat) : Except IOErrorKind String :=
  match utf8Decode data with
  | none => .error .invalidData
  | some chars =>
    match rustLines (String.mk chars) with
    | [] => .error .invalidData
    | first_line :: _ =>
      match (splitOnChar ' ' first_line)[1]? with
      | none => .error .invalidData
      | some path => .ok path

/- ## HTML boilerplate and response assembly -/

/-- `html_boilerplate` (src/main.rs): the fixed HTML page template. -/
def html_boilerplate (title content : String) : List Nat :=
  strToBytes ("<!DOCTYPE html>\n<html lang=\"en\">\n\t<head>\n\t\t<title>" ++ title
    ++ "</title>\n\n\t\t<meta charset=\"UTF-8\"/>\n\t\t<meta name=\"robots\" content=\"noindex\"/>\n\t\t<meta http-equiv=\"X-UA-Compatible\" content=\"IE=edge\"/>\n\t\t<meta name=\"viewport\" content=\"width=device-width, initial-scale=1.0\">\n\t</head>\n\t<body>\n\t\t<main>\n\t\t\t"
    ++ content ++ "\n\t\t</main>\n\t</body>\n</html>")

/-- `bad_request_html` (src/main.rs). -/
def bad_request_html : List Nat := html_boilerplate "Bad Request" "<h1>Bad Request</h1>"

/-- `forbidden_html` (src/main.rs). -/
def forbidden_html : List Nat := html_boilerplate "Forbidden" "<h1>Forbidden</h1>"

/-- `not_found_html` (src/main.rs). -/
def not_found_html : List Nat := html_boilerplate "Not Found" "<h1>Not Found</h1>"

/-- `internal_server_error_html` (src/main.rs). -/
def internal_server_error_html : List Nat :=
  html_boilerplate "Internal Server Error" "<h1>Internal Server Error</h1>"

/-- `build_response` (src/main.rs): status line, headers, the fixed
`Server: Jasmin` header, a blank line, then the body. -/
def build_response (status : String) (headers : List (String × String)) (body : List Nat) :
    List Nat :=
  strToBytes "HTTP/1.0 " ++ strToBytes status ++ strToBytes "\r\n"
    ++ (headers.map (fun h => strToBytes (h.1 ++ ": " ++ h.2 ++ "\r\n"))).flatten
    ++ strToBytes "Server: Jasmin\r\n" ++ strToBytes "\r\n" ++ body

/- ## Filesystem oracle and event traces -/

/-- One system call performed by the pipeline, recorded for observability. -/
inductive FsEvent where
  | canonicalizeCall (p : String)
  | statCall (p : String)
  | existsCall (p : String)
  | isFileCall (p : String)
  | readFileCall (p : String)
  | readDirCall (p : String)
deriving DecidableEq

/-- Is the event a Content-Loader disk access (file read or directory
enumeration)? -/
def isLoaderEvent : FsEvent → Bool
  | .readFileCall _ => true
  | .readDirCall _ => true
  | _ => false

/-- The filesystem oracle: one field per system call the source makes.
`statModified` is `fs::metadata(p)?.modified()?` as signed seconds
relative to the unix epoch. `readDir` lists immediate entry names,
`none` standing for a name that is not valid UTF-8. -/
structure FS where
  canonicalize : String → Except IOErrorKind String
  statModified : String → Except IOErrorKind Int
  pathExists : String → Bool
  isFile : String → Bool
  readFile : String → Except IOErrorKind (List Nat)
  readDir : String → Except IOErrorKind (List (Option String))

/- ## Cache (src/main.rs, `struct Cache` and the `caches` HashMap) -/

/-- `struct Cache`: cached content and the modification timestamp observed
when it was stored. -/
structure CacheEntry where
  content : List Nat
  modified_timestamp : Nat
deriving DecidableEq

/-- Association-list lookup, the observable behaviour of `HashMap::get`. -/
def assocLookup {κ α : Type} [DecidableEq κ] : List (κ × α) → κ → Option α
  | [], _ => none
  | (k, v) :: rest, key => if k = key then some v else assocLookup rest key

/-- `HashMap::remove` (drops every binding of the key). -/
def assocRemove {κ α : Type} [DecidableEq κ] : List (κ × α) → κ → List (κ × α)
  | [], _ => []
  | (k, v) :: rest, key =>
    if k = key then assocRemove rest key else (k, v) :: assocRemove rest key

/-- `HashMap::insert` (overwrites any previous binding of the key). -/
def assocInsert {κ α : Type} [DecidableEq κ] (m : List (κ × α)) (key : κ) (v : α) :
    List (κ × α) :=
  (key, v) :: assocRemove m key

/-- The `caches: HashMap<PathBuf, Cache>` map. -/
def CacheMap : Type := List (String × CacheEntry)

/- ## The request-handling pipeline (src/main.rs) -/

/-- `prevent_directory_transversal`: canonicalize the base directory,
strip leading slashes from the request path (empty defaults to
`index.html`), join, canonicalize again and demand the canonical base as
a path prefix; an escape is `ErrorKind::PermissionDenied`. -/
def prevent_directory_transversal (fs : FS) (base_dir path : String) :
    Except IOErrorKind String × List FsEvent :=
  match fs.canonicalize base_dir with
  | .error e => (.error e, [.canonicalizeCall base_dir])
  | .ok base_path =>
    let path1 := trimStartSlashes path
    let path2 := if path1 = "" then "index.html" else path1
    let joined := joinPath base_path path2
    match fs.canonicalize joined with
    | .error e => (.error e, [.canonicalizeCall base_dir, .canonicalizeCall joined])
    | .ok full_path =>
      if pathStartsWith full_path base_path = false then
        (.error .permissionDenied, [.canonicalizeCall base_dir, .canonicalizeCall joined])
      else
        (.ok full_path, [.canonicalizeCall base_dir, .canonicalizeCall joined])

/-- `get_modified_timestamp`: stat the path; a modification time before
the unix epoch (`duration_since` failing) is `ErrorKind::Other`. -/
def get_modified_timestamp (fs : FS) (full_path : String) :
    Except IOErrorKind Nat × List FsEvent :=
  (match fs.statModified full_path with
   | .error e => .error e
   | .ok t => if t < 0 then .error .other else .ok t.toNat,
   [.statCall full_path])

/-- `get_content_from_cache`: no entry is `Ok(None)`; with an entry,
re-stat: a `NotFound` failure evicts the entry and propagates, any other
failure propagates with the entry kept; a timestamp mismatch is
`Ok(None)`; a match returns the cached bytes. -/
def get_content_from_cache (fs : FS) (caches : CacheMap) (full_path : String) :
    Except IOErrorKind (Option (List Nat)) × CacheMap × List FsEvent :=
  match assocLookup caches full_path with
  | none => (.ok none, caches, [])
  | some cache =>
    match get_modified_timestamp fs full_path with
    | (.error e, ev) =>
      if not_found e then (.error e, assocRemove caches full_path, ev)
      else (.error e, caches, ev)
    | (.ok current_timestamp, ev) =>
      if cache.modified_timestamp ≠ current_timestamp then (.ok none, caches, ev)
      else (.ok (some cache.content), caches, ev)

/-- `get_content`: a missing path is `NotFound`; a regular file is read
whole; a directory becomes an HTML listing with one link per UTF-8-named
entry (href `path/entry`), or a placeholder paragraph when the joined
link text is empty. -/
def get_content (fs : FS) (full_path path : String) :
    Except IOErrorKind (List Nat) × List FsEvent :=
  if fs.pathExists full_path = false then
    (.error .notFound, [.existsCall full_path])
  else if fs.isFile full_path = true then
    match fs.readFile full_path with
    | .error e => (.error e, [.existsCall full_path, .isFileCall full_path, .readFileCall full_path])
    | .ok content =>
      (.ok content, [.existsCall full_path, .isFileCall full_path, .readFileCall full_path])
  else
    match fs.readDir full_path with
    | .error e => (.error e, [.existsCall full_path, .isFileCall full_path, .readDirCall full_path])
    | .ok entries =>
      let title := "Index of: " ++ path
      let names := entries.filterMap id
      let tags0 := joinWithSep "\n\n\t\t\t<br/>\n\n\t\t\t"
        (names.map (fun entry => "<a href=\"" ++ path ++ "/" ++ entry ++ "\">" ++ entry ++ "</a>"))
      let tags := if tags0 = "" then "<p>It\x27s empty.</p>" else tags0
      (.ok (html_boilerplate title tags),
       [.existsCall full_path, .isFileCall full_path, .readDirCall full_path])

/-- `handle_request`: parse, resolve, consult the cache, load, store and
assemble, returning the wire response, the updated cache and the trace
of system calls performed. -/
def handle_request (fs : FS) (data : List Nat) (base_dir : String) (caches : CacheMap) :
    List Nat × CacheMap × List FsEvent :=
  match parse_request data with
  | .error _ =>
    (build_response "400 Bad Request" [("Content-Type", "text/html")] bad_request_html,
     caches, [])
  | .ok path =>
    match prevent_directory_transversal fs base_dir path with
    | (.error e, ev1) =>
      if permission_denied e then
        (build_response "403 Forbidden" [("Content-Type", "text/html")] forbidden_html,
         caches, ev1)
      else if not_found e then
        (build_response "404 Not Found" [("Content-Type", "text/html")] not_found_html,
         caches, ev1)
      else
        (build_response "500 Internal Server Error" [("Content-Type", "text/html")]
          internal_server_error_html, caches, ev1)
    | (.ok full_path, ev1) =>
      match get_content_from_cache fs caches full_path with
      | (.ok (some body), caches1, ev2) =>
        (build_response "200 OK" [] body, caches1, ev1 ++ ev2)
      | (.error e, caches1, ev2) =>
        if not_found e then
          (build_response "404 Not Found" [("Content-Type", "text/html")] not_found_html,
           caches1, ev1 ++ ev2)
        else
          (build_response "500 Internal Server Error" [("Content-Type", "text/html")]
            internal_server_error_html, caches1, ev1 ++ ev2)
      | (.ok none, caches1, ev2) =>
        match get_content fs full_path path with
        | (.error e, ev3) =>
          if not_found e then
            (build_response "404 Not Found" [("Content-Type", "text/html")] not_found_html,
             caches1, ev1 ++ ev2 ++ ev3)
          else
            (build_response "500 Internal Server Error" [("Content-Type", "text/html")]
              internal_server_error_html, caches1, ev1 ++ ev2 ++ ev3)
        | (.ok body, ev3) =>
          match get_modified_timestamp fs full_path with
          | (.ok current_timestamp, ev4) =>
            (build_response "200 OK" [] body,
             assocInsert caches1 full_path ⟨body, current_timestamp⟩,
             ev1 ++ ev2 ++ ev3 ++ ev4)
          | (.error e, ev4) =>
            if not_found e then
              (build_response "404 Not Found" [("Content-Type", "text/html")] not_found_html,
               caches1, ev1 ++ ev2 ++ ev3 ++ ev4)
            else
              (build_response "500 Internal Server Error" [("Content-Type", "text/html")]
                internal_server_error_html, caches1, ev1 ++ ev2 ++ ev3 ++ ev4)

/- ## Reactor-side model (src/main.rs, `run_server` / `handle_client` / `close_client`) -/

/-- One readiness event as seen through `mio::event::Event`. -/
structure MioEvent where
  readable : Bool
  writable : Bool

/-- `struct Session`, extended with oracles for the socket calls made on
it: the successive results `TcpStream::read` will yield, and the results
of `write_all` and `flush`. -/
structure Session where
  readScript : List (Except IOErrorKind (List Nat))
  writeResult : Except IOErrorKind Unit
  flushResult : Except IOErrorKind Unit
  response : Option (List Nat)

/-- The `sessions: HashMap<usize, Session>` map. -/
def Sessions : Type := List (Nat × Session)

/-- `close_client`: look the session up, `unwrap`, deregister and remove.
`none` models the `unwrap` panicking on an absent session. -/
def close_client (sessions : Sessions) (client_id : Nat) : Option Sessions :=
  match assocLookup sessions client_id with
  | none => none
  | some _ => some (assocRemove sessions client_id)

/-- The read loop of `handle_client`: accumulate chunks into the
1024-byte buffer until a zero-length read or `WouldBlock` (both stop),
retrying on `Interrupted` and propagating any other error.  A read once
the buffer is full returns zero bytes.  An exhausted script stands for a
stream that would only block from now on. -/
def read_loop : List (Except IOErrorKind (List Nat)) → List Nat → Except IOErrorKind (List Nat)
  | [], acc => .ok acc
  | .ok chunk :: rest, acc =>
    let m := min chunk.length (REQUEST_SIZE - acc.length)
    if m = 0 then .ok acc else read_loop rest (acc ++ chunk.take m)
  | .error e :: rest, acc =>
    if interrupted e then read_loop rest acc
    else if would_block e then .ok acc
    else .error e

/-- `handle_client`: on a readable event, drain the socket, fail on an
empty request, reregister for writability, run the pipeline and store
the response; on a writable event, write any stored response and close.
The middle component is `none` when a `close_client` call inside
panicked. -/
def handle_client (sessions : Sessions) (client_id : Nat) (event : MioEvent)
    (fs : FS) (base_dir : String) (caches : CacheMap)
    (reregisterResult : Except IOErrorKind Unit) :
    Except IOErrorKind Unit × Option Sessions × CacheMap :=
  match assocLookup sessions client_id with
  | none => (.ok (), some sessions, caches)
  | some session =>
    if event.readable then
      match read_loop session.readScript [] with
      | .error e => (.error e, some sessions, caches)
      | .ok data =>
        if data.length = 0 then (.error .other, some sessions, caches)
        else
          match reregisterResult with
          | .error e => (.error e, some sessions, caches)
          | .ok _ =>
            let out := handle_request fs data base_dir caches
            (.ok (),
             some (assocInsert sessions client_id { session with response := some out.1 }),
             out.2.1)
    else if event.writable then
      match session.response with
      | some _ =>
        match session.writeResult with
        | .error e => (.error e, some sessions, caches)
        | .ok _ =>
          match session.flushResult with
          | .error e => (.error e, some sessions, caches)
          | .ok _ => (.ok (), close_client sessions client_id, caches)
      | none => (.ok (), close_client sessions client_id, caches)
    else (.ok (), some sessions, caches)

/-- The client arm of the event dispatch in `run_server` (lines 122-126):
run `handle_client` and, if it failed, `close_client`.  `none` in the
first component models a panic in either `close_client` call. -/
def dispatch_client_event (sessions : Sessions) (client_id : Nat) (event : MioEvent)
    (fs : FS) (base_dir : String) (caches : CacheMap)
    (reregisterResult : Except IOErrorKind Unit) :
    Option Sessions × CacheMap :=
  match handle_client sessions client_id event fs base_dir caches reregisterResult with
  | (.error _, some sessions2, caches2) => (close_client sessions2 client_id, caches2)
  | (.error _, none, caches2) => (none, caches2)
  | (.ok _, s2, caches2) => (s2, caches2)

/- ## A concrete symlink-free filesystem for witnesses -/

/-- A filesystem node: a regular file with contents and modification
time, or a directory with its immediate entry names and modification
time. -/
inductive Node where
  | file (content : List Nat) (mtime : Int)
  | dir (entries : List (Option String)) (mtime : Int)
deriving DecidableEq

/-- The modification time of a node. -/
def Node.mtime : Node → Int
  | .file _ t => t
  | .dir _ t => t

/-- Lexical normalization of an absolute unix path: `.` and empty
components vanish, `..` pops (staying at the root). -/
def normalizeComps : List String → List String → List String
  | [], acc => acc.reverse
  | c :: rest, acc =>
    if c = "" ∨ c = "." then normalizeComps rest acc
    else if c = ".." then normalizeComps rest acc.tail
    else normalizeComps rest (c :: acc)

/-- Normalized form of an absolute path. -/
def normalizePath (p : String) : String :=
  "/" ++ joinWithSep "/" (normalizeComps (splitOnChar '/' p) [])

/-- Build a filesystem oracle from a finite node table keyed by
normalized absolute paths.  `canonicalize` normalizes lexically and
fails with `NotFound` when the target is absent (no symlinks). -/
def mkFS (nodes : List (String × Node)) : FS where
  canonicalize p :=
    match assocLookup nodes (normalizePath p) with
    | some _ => .ok (normalizePath p)
    | none => .error .notFound
  statModified p :=
    match assocLookup nodes p with
    | some n => .ok n.mtime
    | none => .error .notFound
  pathExists p := (assocLookup nodes p).isSome
  isFile p :=
    match assocLookup nodes p with
    | some (.file _ _) => true
    | _ => false
  readFile p :=
    match assocLookup nodes p with
    | some (.file c _) => .ok c
    | some (.dir _ _) => .error .other
    | none => .error .notFound
  readDir p :=
    match assocLookup nodes p with
    | some (.dir es _) => .ok es
    | some (.file _ _) => .error .other
    | none => .error .notFound

/- ## Wire-format helpers -/

/-- The wire layout of every response the server emits: `HTTP/1.0 `,
the status line, CRLF, an optional `Content-Type: text/html` header
line, the `Server: Jasmin` header line, a blank line, then the body. -/
def wireResponse (status : String) (ct : Bool) (body : List Nat) : List Nat :=
  strToBytes "HTTP/1.0 " ++ strToBytes status ++ [13, 10]
    ++ (if ct then strToBytes "Content-Type: text/html\r\n" else [])
    ++ strToBytes "Server: Jasmin\r\n" ++ [13, 10] ++ body

lemma str_data_append (a b : String) : (a ++ b).data = a.data ++ b.data := by
  cases a
  cases b
  rfl

lemma strToBytes_append (a b : String) : strToBytes (a ++ b) = strToBytes a ++ strToBytes b := by
  simp [strToBytes, str_data_append]

lemma build_response_wire_none (s : String) (b : List Nat) :
    build_response s [] b = wireResponse s false b := by
  simp [build_response, wireResponse]
  rfl

lemma build_response_wire_ct (s : String) (b : List Nat) :
    build_response s [("Content-Type", "text/html")] b = wireResponse s true b := by
  have h : strToBytes ("Content-Type" ++ ": " ++ "text/html" ++ "\r\n")
      = strToBytes "Content-Type: text/html\r\n" := by decide
  simp [build_response, wireResponse, h, List.append_assoc]
  rfl

/-- The bytes of a response up to the first carriage return. -/
def statusLineOf (r : List Nat) : List Nat :=
  r.takeWhile (fun b => b ≠ 13)

lemma takeWhile_prefix_13 (A R : List Nat) (hA : 13 ∉ A) :
    (A ++ 13 :: R).takeWhile (fun b => b ≠ 13) = A := by
  induction A with
  | nil => simp
  | cons x xs ih =>
    simp only [List.mem_cons, not_or] at hA
    have hx : ¬ (x = 13) := fun h => hA.1 h.symm
    have ih2 := ih hA.2
    simp only [ne_eq, decide_not] at ih2 ⊢
    simp [List.takeWhile_cons, hx, ih2]

lemma statusLineOf_wire (s : String) (ct : Bool) (b : List Nat)
    (hA : 13 ∉ strToBytes "HTTP/1.0 " ++ strToBytes s) :
    statusLineOf (wireResponse s ct b) = strToBytes "HTTP/1.0 " ++ strToBytes s := by
  have h : wireResponse s ct b = (strToBytes "HTTP/1.0 " ++ strToBytes s)
      ++ 13 :: (10 :: ((if ct then strToBytes "Content-Type: text/html\r\n" else [])
        ++ (strToBytes "Server: Jasmin\r\n" ++ 13 :: 10 :: b))) := by
    simp [wireResponse, List.append_assoc]
  rw [statusLineOf, h, takeWhile_prefix_13 _ _ hA]

lemma parse_request_error_eq (data : List Nat) (e : IOErrorKind)
    (h : parse_request data = .error e) : e = .invalidData := by
  unfold parse_request at h
  repeat' split at h
  all_goals simp_all

/-- Case analysis of the whole pipeline: either parsing failed and the
result is the 400 page with an untouched cache, or parsing succeeded
and the result is a 200 response or one of the three fixed error
pages. -/
lemma handle_request_cases (fs : FS) (data : List Nat) (base : String) (caches : CacheMap) :
    (parse_request data = .error .invalidData ∧
      handle_request fs data base caches
        = (wireResponse "400 Bad Request" true bad_request_html, caches, []))
    ∨ ((∃ p, parse_request data = .ok p) ∧
        ((∃ b, (handle_request fs data base caches).1 = wireResponse "200 OK" false b)
          ∨ (handle_request fs data base caches).1 = wireResponse "403 Forbidden" true forbidden_html
          ∨ (handle_request fs data base caches).1 = wireResponse "404 Not Found" true not_found_html
          ∨ (handle_request fs data base caches).1
              = wireResponse "500 Internal Server Error" true internal_server_error_html)) := by
  rcases hp : parse_request data with e | path
  · left
    have he := parse_request_error_eq data e hp
    subst he
    refine ⟨rfl, ?_⟩
    simp only [handle_request, hp, build_response_wire_ct]
  · right
    refine ⟨⟨path, rfl⟩, ?_⟩
    simp only [handle_request, hp]
    repeat' split
    all_goals dsimp only
    all_goals simp only [build_response_wire_none, build_response_wire_ct]
    all_goals first
      | exact Or.inl ⟨_, rfl⟩
      | exact Or.inr (Or.inl trivial)
      | exact Or.inr (Or.inr (Or.inl trivial))
      | exact Or.inr (Or.inr (Or.inr trivial))

/-- C8: every response emitted by the pipeline is laid out as
`HTTP/1.0 <status-line>\r\n`, then headers each ending in CRLF — exactly
a `Content-Type: text/html` header on the four error statuses and no
header at all on `200 OK` beyond the fixed `Server: Jasmin` one — then a
blank line and the body; in particular no `Content-Length` header is
ever emitted and the status line is one of the five fixed ones. -/
theorem C8_response_wire_format (fs : FS) (data : List Nat) (base : String)
    (caches : CacheMap) :
    (∃ b, (handle_request fs data base caches).1 = wireResponse "200 OK" false b)
    ∨ (handle_request fs data base caches).1
        = wireResponse "400 Bad Request" true bad_request_html
    ∨ (handle_request fs data base caches).1
        = wireResponse "403 Forbidden" true forbidden_html
    ∨ (handle_request fs data base caches).1
        = wireResponse "404 Not Found" true not_found_html
    ∨ (handle_request fs data base caches).1
        = wireResponse "500 Internal Server Error" true internal_server_error_html := by
  rcases handle_request_cases fs data base caches with ⟨_, h⟩ | ⟨_, h⟩
  · exact Or.inr (Or.inl (by rw [h]))
  · rcases h with h | h | h | h
    · exact Or.inl h
    · exact Or.inr (Or.inr (Or.inl h))
    · exact Or.inr (Or.inr (Or.inr (Or.inl h)))
    · exact Or.inr (Or.inr (Or.inr (Or.inr h)))

lemma handle_client_shape (sessions : Sessions) (client_id : Nat) (event : MioEvent)
    (fs : FS) (base_dir : String) (caches : CacheMap) (rr : Except IOErrorKind Unit) :
    ((handle_client sessions client_id event fs base_dir caches rr).2.1 ≠ none)
    ∧ (∀ e, (handle_client sessions client_id event fs base_dir caches rr).1 = .error e →
        (handle_client sessions client_id event fs base_dir caches rr).2.1 = some sessions
        ∧ assocLookup sessions client_id ≠ none) := by
  rcases hl : assocLookup sessions client_id with _ | session
  · simp [handle_client, hl]
  · simp only [handle_client, hl]
    repeat' split
    all_goals simp_all [close_client, hl]

/-- C10: the client arm of the reactor dispatch never panics: the
`unwrap` inside `close_client` always finds a live session, both at the
call site inside the writable branch of `handle_client` and at the
error-path call site in `run_server`. -/
theorem C10_close_client_safe (sessions : Sessions) (client_id : Nat) (event : MioEvent)
    (fs : FS) (base_dir : String) (caches : CacheMap)
    (reregisterResult : Except IOErrorKind Unit) :
    (dispatch_client_event sessions client_id event fs base_dir caches
      reregisterResult).1 ≠ none := by
  have h := handle_client_shape sessions client_id event fs base_dir caches reregisterResult
  unfold dispatch_client_event
  rcases hh : handle_client sessions client_id event fs base_dir caches reregisterResult
    with ⟨res, s2, c2⟩
  rw [hh] at h
  rcases res with e | u
  · obtain ⟨hs2, hlk⟩ := h.2 e rfl
    simp only at hs2
    subst hs2
    rcases hx : assocLookup sessions client_id with _ | s
    · exact absurd hx hlk
    · simp [close_client, hx]
  · simpa using h.1

/- ## Parse characterization (C4, C9) -/

/-- The spec-side description of a parse failure: the bytes are not
valid UTF-8, or there is no first line, or the first line has no second
space-delimited token. -/
def specParseFailure (data : List Nat) : Bool :=
  match utf8Decode data with
  | none => true
  | some cs =>
    match rustLines (String.mk cs) with
    | [] => true
    | first_line :: _ => ((splitOnChar ' ' first_line)[1]?).isNone

/-- The spec-side second space-delimited token of the first line. -/
def secondTokenOf (data : List Nat) : Option String :=
  match utf8Decode data with
  | none => none
  | some cs =>
    match rustLines (String.mk cs) with
    | [] => none
    | first_line :: _ => (splitOnChar ' ' first_line)[1]?

lemma parse_fail_iff (data : List Nat) :
    parse_request data = .error .invalidData ↔ specParseFailure data = true := by
  unfold parse_request specParseFailure
  rcases hd : utf8Decode data with _ | cs
  · simp
  · rcases hr : rustLines (String.mk cs) with _ | ⟨l, rest⟩
    · simp [hr]
    · rcases hs : (splitOnChar ' ' l)[1]? with _ | tok <;> simp [hr, hs]

lemma parse_ok_of_secondToken (data : List Nat) (tok : String)
    (h : secondTokenOf data = some tok) : parse_request data = .ok tok := by
  unfold secondTokenOf at h
  unfold parse_request
  rcases hd : utf8Decode data with _ | cs
  · simp [hd] at h
  · rcases hr : rustLines (String.mk cs) with _ | ⟨l, rest⟩
    · simp [hd, hr] at h
    · simp only [hd, hr] at h ⊢
      simp [h]

/-- C4: the pipeline answers with the 400 status line precisely when
parsing fails, parsing fails precisely when the bytes are not valid
UTF-8, or there is no first line, or the first line lacks a second
space-delimited token (and then the 400 response carries the HTML bad
request body); otherwise parsing yields that second token as the
requested path. -/
theorem C4_bad_request_iff (fs : FS) (data : List Nat) (base : String) (caches : CacheMap) :
    (statusLineOf (handle_request fs data base caches).1
        = strToBytes "HTTP/1.0 400 Bad Request" ↔ specParseFailure data = true)
    ∧ (specParseFailure data = true →
        (handle_request fs data base caches).1
          = wireResponse "400 Bad Request" true bad_request_html)
    ∧ (∀ tok, secondTokenOf data = some tok → parse_request data = .ok tok) := by
  have hcases := handle_request_cases fs data base caches
  refine ⟨⟨?_, ?_⟩, ?_, fun tok h => parse_ok_of_secondToken data tok h⟩
  · intro hst
    rcases hcases with ⟨hperr, _⟩ | ⟨⟨p, hpok⟩, hr⟩
    · exact (parse_fail_iff data).mp hperr
    · exfalso
      rcases hr with ⟨b, hb⟩ | hb | hb | hb <;>
        rw [hb, statusLineOf_wire _ _ _ (by decide)] at hst <;>
        exact absurd hst (by decide)
  · intro hsp
    have hperr := (parse_fail_iff data).mpr hsp
    rcases hcases with ⟨_, heq⟩ | ⟨⟨p, hpok⟩, _⟩
    · rw [show (handle_request fs data base caches).1
          = wireResponse "400 Bad Request" true bad_request_html from by rw [heq]]
      rw [statusLineOf_wire _ _ _ (by decide)]
      decide
    · rw [hpok] at hperr
      simp at hperr
  · intro hsp
    have hperr := (parse_fail_iff data).mpr hsp
    rcases hcases with ⟨_, heq⟩ | ⟨⟨p, hpok⟩, _⟩
    · rw [heq]
    · rw [hpok] at hperr
      simp at hperr

/-- Witness for C4 at concrete inputs: the byte `0xFF` is invalid UTF-8
and yields the 400 page; `GET /x HTTP/1.0` parses to the path `/x`. -/
theorem C4_bad_request_iff_witness :
    statusLineOf (handle_request (mkFS []) [255] "/srv" []).1
        = strToBytes "HTTP/1.0 400 Bad Request"
    ∧ (handle_request (mkFS []) [255] "/srv" []).1
        = wireResponse "400 Bad Request" true bad_request_html
    ∧ parse_request (strToBytes "GET /x HTTP/1.0\r\n\r\n") = .ok "/x" :=
  ⟨(C4_bad_request_iff (mkFS []) [255] "/srv" []).1.mpr (by decide),
   (C4_bad_request_iff (mkFS []) [255] "/srv" []).2.1 (by decide),
   (C4_bad_request_iff (mkFS []) (strToBytes "GET /x HTTP/1.0\r\n\r\n") "/srv" []).2.2 "/x"
     (by decide)⟩

/- ## C1: directory traversal -/

/-- A filesystem whose root `/srv/static` holds only `index.html`; the
escape target `/etc/passwd` does not exist. -/
def fsC1 : FS := mkFS [("/srv/static", .dir [some "index.html"] 5),
  ("/srv/static/index.html", .file [104, 105] 7)]

/-- C1 counterexample: `GET /../../etc/passwd` resolves outside the
configured root `/srv/static` (to `/etc/passwd`), yet because the
escaping target does not exist the canonicalize call fails with
`NotFound` and the pipeline answers 404, not the 403 the claim demands
regardless of the target's existence. -/
theorem C1_counterexample :
    normalizePath (joinPath "/srv/static" "../../etc/passwd") = "/etc/passwd"
    ∧ pathStartsWith "/etc/passwd" "/srv/static" = false
    ∧ (handle_request fsC1 (strToBytes "GET /../../etc/passwd HTTP/1.0\r\n\r\n")
        "/srv/static" []).1
        = wireResponse "404 Not Found" true not_found_html
    ∧ (handle_request fsC1 (strToBytes "GET /../../etc/passwd HTTP/1.0\r\n\r\n")
        "/srv/static" []).1
        ≠ wireResponse "403 Forbidden" true forbidden_html :=
  ⟨by decide, by decide, by decide, by decide⟩

/-- C1 (amended): a request path that canonicalizes outside the root is
answered 403 when the escaping target exists (so canonicalization
succeeds); when the escaping target does not exist, canonicalization
fails with `NotFound` and the answer is 404 — in neither case a 200. -/
theorem C1_traversal_amended (fs : FS) (data : List Nat) (base : String) (caches : CacheMap)
    (path base_path : String)
    (hparse : parse_request data = .ok path)
    (hbase : fs.canonicalize base = .ok base_path) :
    (∀ full_path,
        fs.canonicalize (joinPath base_path
          (if trimStartSlashes path = "" then "index.html" else trimStartSlashes path))
          = .ok full_path →
        pathStartsWith full_path base_path = false →
        (handle_request fs data base caches).1
          = wireResponse "403 Forbidden" true forbidden_html)
    ∧ (fs.canonicalize (joinPath base_path
          (if trimStartSlashes path = "" then "index.html" else trimStartSlashes path))
          = .error .notFound →
        (handle_request fs data base caches).1
          = wireResponse "404 Not Found" true not_found_html) := by
  constructor
  · intro full_path hjoin hpre
    simp [handle_request, hparse, prevent_directory_transversal, hbase, hjoin, hpre,
      permission_denied, build_response_wire_ct]
  · intro hjoin
    simp [handle_request, hparse, prevent_directory_transversal, hbase, hjoin,
      permission_denied, not_found, build_response_wire_ct]

/-- A filesystem where the escape target `/etc/passwd` exists. -/
def fsC1b : FS := mkFS [("/srv/static", .dir [] 5), ("/etc", .dir [some "passwd"] 3),
  ("/etc/passwd", .file [112] 4)]

/-- Witness for the amended C1: with an existing escape target the
pipeline answers 403 Forbidden. -/
theorem C1_traversal_amended_witness :
    (handle_request fsC1b (strToBytes "GET /../../etc/passwd HTTP/1.0\r\n\r\n")
      "/srv/static" []).1
      = wireResponse "403 Forbidden" true forbidden_html :=
  (C1_traversal_amended fsC1b (strToBytes "GET /../../etc/passwd HTTP/1.0\r\n\r\n")
    "/srv/static" [] "/../../etc/passwd" "/srv/static" (by decide) (by decide)).1
    "/etc/passwd" (by decide) (by decide)

/- ## C5: stat failure on a cached entry -/

lemma pair_eta_fst {α β : Type} (p : α × β) (a : α) (h : p.1 = a) : p = (a, p.2) := by
  rw [← h]

/-- C5: when a cache entry exists for the resolved path but re-statting
the file fails, a `NotFound` failure evicts the stale entry and the
pipeline answers 404, while any other stat failure leaves the cache
untouched and answers 500. -/
theorem C5_cache_stat_failure (fs : FS) (data : List Nat) (base : String) (caches : CacheMap)
    (path full_path : String) (entry : CacheEntry) (e : IOErrorKind)
    (hparse : parse_request data = .ok path)
    (hresolve : (prevent_directory_transversal fs base path).1 = .ok full_path)
    (hcache : assocLookup caches full_path = some entry)
    (hstat : (get_modified_timestamp fs full_path).1 = .error e) :
    (handle_request fs data base caches).1
        = (if e = .notFound then wireResponse "404 Not Found" true not_found_html
           else wireResponse "500 Internal Server Error" true internal_server_error_html)
    ∧ (handle_request fs data base caches).2.1
        = (if e = .notFound then assocRemove caches full_path else caches) := by
  obtain ⟨ev1, hres2⟩ : ∃ ev, prevent_directory_transversal fs base path = (.ok full_path, ev) :=
    ⟨_, pair_eta_fst _ _ hresolve⟩
  obtain ⟨ev4, hst2⟩ : ∃ ev, get_modified_timestamp fs full_path = (.error e, ev) :=
    ⟨_, pair_eta_fst _ _ hstat⟩
  by_cases he : e = .notFound
  · subst he
    have hgc : get_content_from_cache fs caches full_path
        = (.error .notFound, assocRemove caches full_path, ev4) := by
      simp only [get_content_from_cache, hcache, hst2]
      simp [not_found]
    constructor <;> simp [handle_request, hparse, hres2, hgc, not_found,
      build_response_wire_ct]
  · have hgc : get_content_from_cache fs caches full_path = (.error e, caches, ev4) := by
      simp only [get_content_from_cache, hcache, hst2]
      simp [not_found, he]
    constructor <;> simp [handle_request, hparse, hres2, hgc, not_found, he,
      build_response_wire_ct]

/-- A filesystem oracle modelling a file deleted between the
canonicalize call and the re-stat of the cache check: resolving
`/srv/static/index.html` still succeeds, but every stat fails with
`NotFound`. -/
def fsC5 : FS where
  canonicalize p :=
    if normalizePath p = "/srv/static" ∨ normalizePath p = "/srv/static/index.html" then
      .ok (normalizePath p)
    else .error .notFound
  statModified _ := .error .notFound
  pathExists _ := false
  isFile _ := false
  readFile _ := .error .notFound
  readDir _ := .error .notFound

/-- Witness for C5: a stale cache entry for a deleted file is evicted
and the answer is 404. -/
theorem C5_cache_stat_failure_witness :
    (handle_request fsC5 (strToBytes "GET / HTTP/1.0\r\n\r\n") "/srv/static"
        [("/srv/static/index.html", ⟨[104], 7⟩)]).1
      = (if IOErrorKind.notFound = .notFound then wireResponse "404 Not Found" true not_found_html
         else wireResponse "500 Internal Server Error" true internal_server_error_html)
    ∧ (handle_request fsC5 (strToBytes "GET / HTTP/1.0\r\n\r\n") "/srv/static"
        [("/srv/static/index.html", ⟨[104], 7⟩)]).2.1
      = (if IOErrorKind.notFound = .notFound
         then assocRemove [("/srv/static/index.html", ⟨[104], 7⟩)] "/srv/static/index.html"
         else [("/srv/static/index.html", ⟨[104], 7⟩)]) :=
  C5_cache_stat_failure fsC5 (strToBytes "GET / HTTP/1.0\r\n\r\n") "/srv/static"
    [("/srv/static/index.html", ⟨[104], 7⟩)] "/" "/srv/static/index.html" ⟨[104], 7⟩
    .notFound (by decide) (by decide) (by decide) (by decide)

/- ## C3: stale entry is refreshed -/

/-- C3: with a cached entry whose stored timestamp differs from the
file's current one, the cache lookup reports a miss, the response
carries the freshly loaded content, and afterwards the cache holds that
content with the file's current timestamp. -/
theorem C3_stale_cache_refresh (fs : FS) (data : List Nat) (base : String) (caches : CacheMap)
    (path full_path : String) (entry : CacheEntry) (t : Nat) (body : List Nat)
    (hparse : parse_request data = .ok path)
    (hresolve : (prevent_directory_transversal fs base path).1 = .ok full_path)
    (hcache : assocLookup caches full_path = some entry)
    (hstat : (get_modified_timestamp fs full_path).1 = .ok t)
    (hne : entry.modified_timestamp ≠ t)
    (hload : (get_content fs full_path path).1 = .ok body) :
    (get_content_from_cache fs caches full_path).1 = .ok none
    ∧ (handle_request fs data base caches).1 = wireResponse "200 OK" false body
    ∧ assocLookup (handle_request fs data base caches).2.1 full_path = some ⟨body, t⟩ := by
  obtain ⟨ev1, hres2⟩ : ∃ ev, prevent_directory_transversal fs base path = (.ok full_path, ev) :=
    ⟨_, pair_eta_fst _ _ hresolve⟩
  obtain ⟨ev4, hst2⟩ : ∃ ev, get_modified_timestamp fs full_path = (.ok t, ev) :=
    ⟨_, pair_eta_fst _ _ hstat⟩
  obtain ⟨ev3, hld2⟩ : ∃ ev, get_content fs full_path path = (.ok body, ev) :=
    ⟨_, pair_eta_fst _ _ hload⟩
  have hgc : get_content_from_cache fs caches full_path = (.ok none, caches, ev4) := by
    simp [get_content_from_cache, hcache, hst2, hne]
  refine ⟨by rw [hgc], ?_, ?_⟩
  · simp [handle_request, hparse, hres2, hgc, hld2, hst2, build_response_wire_none]
  · simp [handle_request, hparse, hres2, hgc, hld2, hst2, assocInsert, assocLookup]

/-- A filesystem whose `index.html` now holds "new" with timestamp 7. -/
def fsC3 : FS := mkFS [("/srv/static", .dir [some "index.html"] 5),
  ("/srv/static/index.html", .file [110, 101, 119] 7)]

/-- Witness for C3: a stale entry (timestamp 3, content "old") is
refreshed to the current content "new" with timestamp 7. -/
theorem C3_stale_cache_refresh_witness :
    (get_content_from_cache fsC3 [("/srv/static/index.html", ⟨[111, 108, 100], 3⟩)]
        "/srv/static/index.html").1 = .ok none
    ∧ (handle_request fsC3 (strToBytes "GET / HTTP/1.0\r\n\r\n") "/srv/static"
        [("/srv/static/index.html", ⟨[111, 108, 100], 3⟩)]).1
        = wireResponse "200 OK" false [110, 101, 119]
    ∧ assocLookup (handle_request fsC3 (strToBytes "GET / HTTP/1.0\r\n\r\n") "/srv/static"
        [("/srv/static/index.html", ⟨[111, 108, 100], 3⟩)]).2.1 "/srv/static/index.html"
        = some ⟨[110, 101, 119], 7⟩ :=
  C3_stale_cache_refresh fsC3 (strToBytes "GET / HTTP/1.0\r\n\r\n") "/srv/static"
    [("/srv/static/index.html", ⟨[111, 108, 100], 3⟩)] "/" "/srv/static/index.html"
    ⟨[111, 108, 100], 3⟩ 7 [110, 101, 119]
    (by decide) (by decide) (by decide) (by decide) (by decide) (by decide)

/- ## C6: missing path leaves no cache entry -/

lemma assocLookup_remove {κ α : Type} [DecidableEq κ] (m : List (κ × α)) (k : κ) :
    assocLookup (assocRemove m k) k = none := by
  induction m with
  | nil => rfl
  | cons p rest ih =>
    rcases p with ⟨k1, v⟩
    by_cases h : k1 = k <;> simp [assocRemove, assocLookup, h, ih]

/-- C6: a request whose resolved path does not exist is answered 404 and
leaves the cache without an entry for the path; a later request on a
filesystem where the file now exists is answered 200 with its content. -/
theorem C6_not_found_no_cache_entry (fs fs2 : FS) (data : List Nat) (base : String)
    (caches : CacheMap) (path full_path : String) (t : Nat) (body : List Nat)
    (hparse : parse_request data = .ok path)
    (hresolve : (prevent_directory_transversal fs base path).1 = .ok full_path)
    (hnoexist : fs.pathExists full_path = false)
    (hstatfail : fs.statModified full_path = .error .notFound)
    (hresolve2 : (prevent_directory_transversal fs2 base path).1 = .ok full_path)
    (hstat2 : (get_modified_timestamp fs2 full_path).1 = .ok t)
    (hload2 : (get_content fs2 full_path path).1 = .ok body) :
    (handle_request fs data base caches).1 = wireResponse "404 Not Found" true not_found_html
    ∧ assocLookup (handle_request fs data base caches).2.1 full_path = none
    ∧ (handle_request fs2 data base (handle_request fs data base caches).2.1).1
        = wireResponse "200 OK" false body := by
  obtain ⟨ev1, hres2⟩ : ∃ ev, prevent_directory_transversal fs base path = (.ok full_path, ev) :=
    ⟨_, pair_eta_fst _ _ hresolve⟩
  obtain ⟨ev1b, hres2b⟩ : ∃ ev, prevent_directory_transversal fs2 base path
      = (.ok full_path, ev) := ⟨_, pair_eta_fst _ _ hresolve2⟩
  obtain ⟨ev4b, hst2b⟩ : ∃ ev, get_modified_timestamp fs2 full_path = (.ok t, ev) :=
    ⟨_, pair_eta_fst _ _ hstat2⟩
  obtain ⟨ev3b, hld2b⟩ : ∃ ev, get_content fs2 full_path path = (.ok body, ev) :=
    ⟨_, pair_eta_fst _ _ hload2⟩
  have hload_fail : get_content fs full_path path
      = (.error .notFound, [.existsCall full_path]) := by
    simp [get_content, hnoexist]
  have hmain : (handle_request fs data base caches).1
      = wireResponse "404 Not Found" true not_found_html
      ∧ assocLookup (handle_request fs data base caches).2.1 full_path = none := by
    rcases hlk : assocLookup caches full_path with _ | entry
    · have hgc : get_content_from_cache fs caches full_path = (.ok none, caches, []) := by
        simp [get_content_from_cache, hlk]
      constructor <;> simp [handle_request, hparse, hres2, hgc, hload_fail, not_found,
        build_response_wire_ct, hlk]
    · have hstt : get_modified_timestamp fs full_path
          = (.error .notFound, [.statCall full_path]) := by
        simp [get_modified_timestamp, hstatfail]
      have hgc : get_content_from_cache fs caches full_path
          = (.error .notFound, assocRemove caches full_path, [.statCall full_path]) := by
        simp [get_content_from_cache, hlk, hstt, not_found]
      constructor <;> simp [handle_request, hparse, hres2, hgc, not_found,
        build_response_wire_ct, assocLookup_remove]
  have hgc2 : get_content_from_cache fs2 (handle_request fs data base caches).2.1 full_path
      = (.ok none, (handle_request fs data base caches).2.1, []) := by
    simp [get_content_from_cache, hmain.2]
  refine ⟨hmain.1, hmain.2, ?_⟩
  revert hgc2
  generalize (handle_request fs data base caches).2.1 = cache1
  intro hgc2
  simp [handle_request, hparse, hres2b, hgc2, hld2b, hst2b, build_response_wire_none]

/-- A filesystem oracle modelling `/srv/static/index.html` vanishing
after the canonicalize call: resolution succeeds, nothing exists. -/
def fsC6 : FS where
  canonicalize p :=
    if normalizePath p = "/srv/static" ∨ normalizePath p = "/srv/static/index.html" then
      .ok (normalizePath p)
    else .error .notFound
  statModified _ := .error .notFound
  pathExists _ := false
  isFile _ := false
  readFile _ := .error .notFound
  readDir _ := .error .notFound

/-- The same tree after `/srv/static/index.html` has been created with
content "hi" and timestamp 7. -/
def fsC6b : FS := mkFS [("/srv/static", .dir [some "index.html"] 5),
  ("/srv/static/index.html", .file [104, 105] 7)]

/-- Witness for C6: the missing file is answered 404 with no cache
entry created; after the file appears, the same request is answered 200
with its content. -/
theorem C6_not_found_no_cache_entry_witness :
    (handle_request fsC6 (strToBytes "GET / HTTP/1.0\r\n\r\n") "/srv/static" []).1
        = wireResponse "404 Not Found" true not_found_html
    ∧ assocLookup (handle_request fsC6 (strToBytes "GET / HTTP/1.0\r\n\r\n")
        "/srv/static" []).2.1 "/srv/static/index.html" = none
    ∧ (handle_request fsC6b (strToBytes "GET / HTTP/1.0\r\n\r\n") "/srv/static"
        (handle_request fsC6 (strToBytes "GET / HTTP/1.0\r\n\r\n") "/srv/static" []).2.1).1
        = wireResponse "200 OK" false [104, 105] :=
  C6_not_found_no_cache_entry fsC6 fsC6b (strToBytes "GET / HTTP/1.0\r\n\r\n") "/srv/static"
    [] "/" "/srv/static/index.html" 7 [104, 105]
    (by decide) (by decide) (by decide) (by decide) (by decide) (by decide) (by decide)

/- ## C7: directory listings -/

lemma str_len_append (a b : String) : (a ++ b).data.length = a.data.length + b.data.length := by
  rw [str_data_append, List.length_append]

lemma str_eq_empty_of_len (x : String) (h : x.data.length = 0) : x = "" := by
  cases x with
  | mk d =>
    cases d with
    | nil => rfl
    | cons c cs => simp at h

lemma link_ne_empty (path s : String) :
    ("<a href=\"" ++ path ++ "/" ++ s ++ "\">" ++ s ++ "</a>") ≠ "" := by
  intro hc
  have hlen : ("<a href=\"" ++ path ++ "/" ++ s ++ "\">" ++ s ++ "</a>").data.length
      = ("" : String).data.length := by rw [hc]
  simp only [str_len_append] at hlen
  have h9 : ("<a href=\"" : String).data.length = 9 := by decide
  have h0 : ("" : String).data.length = 0 := by decide
  rw [h9, h0] at hlen
  omega

lemma joinWithSep_cons_ne_empty (sep x : String) (r : List String) (hx : x ≠ "") :
    joinWithSep sep (x :: r) ≠ "" := by
  cases r with
  | nil => simpa [joinWithSep] using hx
  | cons y rr =>
    intro hc
    apply hx
    have hstep : joinWithSep sep (x :: y :: rr) = x ++ sep ++ joinWithSep sep (y :: rr) := by
      simp [joinWithSep]
    rw [hstep] at hc
    have hlen : (x ++ sep ++ joinWithSep sep (y :: rr)).data.length
        = ("" : String).data.length := by rw [hc]
    simp only [str_len_append] at hlen
    have h0 : ("" : String).data.length = 0 := by decide
    rw [h0] at hlen
    exact str_eq_empty_of_len x (by omega)

lemma links_empty_iff (path : String) (names : List String) :
    (joinWithSep "\n\n\t\t\t<br/>\n\n\t\t\t"
        (names.map (fun entry => "<a href=\"" ++ path ++ "/" ++ entry ++ "\">" ++ entry ++ "</a>"))
      = "") ↔ names = [] := by
  cases names with
  | nil => simp [joinWithSep]
  | cons x rest =>
    simp only [List.map_cons]
    constructor
    · intro h
      exact absurd h (joinWithSep_cons_ne_empty _ _ _ (link_ne_empty path x))
    · intro h
      simp at h

/-- C7: a request resolving to a directory with no UTF-8-nameable
entries is answered with the placeholder page, never an empty link
list, while a non-empty directory gets one link per UTF-8-nameable
entry with href `path/entry`. -/
theorem C7_directory_listing (fs : FS) (data : List Nat) (base : String) (caches : CacheMap)
    (path full_path : String) (entries : List (Option String)) (t : Nat)
    (hparse : parse_request data = .ok path)
    (hresolve : (prevent_directory_transversal fs base path).1 = .ok full_path)
    (hnocache : assocLookup caches full_path = none)
    (hexists : fs.pathExists full_path = true)
    (hnotfile : fs.isFile full_path = false)
    (hdir : fs.readDir full_path = .ok entries)
    (hstat : (get_modified_timestamp fs full_path).1 = .ok t) :
    (handle_request fs data base caches).1
      = wireResponse "200 OK" false (html_boilerplate ("Index of: " ++ path)
          (if entries.filterMap id = [] then "<p>It\x27s empty.</p>"
           else joinWithSep "\n\n\t\t\t<br/>\n\n\t\t\t" ((entries.filterMap id).map
             (fun entry => "<a href=\"" ++ path ++ "/" ++ entry ++ "\">" ++ entry ++ "</a>")))) := by
  obtain ⟨ev1, hres2⟩ : ∃ ev, prevent_directory_transversal fs base path = (.ok full_path, ev) :=
    ⟨_, pair_eta_fst _ _ hresolve⟩
  obtain ⟨ev4, hst2⟩ : ∃ ev, get_modified_timestamp fs full_path = (.ok t, ev) :=
    ⟨_, pair_eta_fst _ _ hstat⟩
  have hgc : get_content_from_cache fs caches full_path = (.ok none, caches, []) := by
    simp [get_content_from_cache, hnocache]
  have hload : get_content fs full_path path
      = (.ok (html_boilerplate ("Index of: " ++ path)
          (if entries.filterMap id = [] then "<p>It\x27s empty.</p>"
           else joinWithSep "\n\n\t\t\t<br/>\n\n\t\t\t" ((entries.filterMap id).map
             (fun entry => "<a href=\"" ++ path ++ "/" ++ entry ++ "\">" ++ entry ++ "</a>")))),
         [.existsCall full_path, .isFileCall full_path, .readDirCall full_path]) := by
    simp only [get_content, hexists, hnotfile, hdir]
    by_cases hn : entries.filterMap id = []
    · simp [hn, joinWithSep]
    · have htags : joinWithSep "\n\n\t\t\t<br/>\n\n\t\t\t" ((entries.filterMap id).map
          (fun entry => "<a href=\"" ++ path ++ "/" ++ entry ++ "\">" ++ entry ++ "</a>")) ≠ "" :=
        fun hc => hn ((links_empty_iff path (entries.filterMap id)).mp hc)
      simp [hn, htags]
  simp [handle_request, hparse, hres2, hgc, hload, hst2, build_response_wire_none]

/-- A filesystem with an empty subdirectory `/srv/static/sub`. -/
def fsC7 : FS := mkFS [("/srv/static", .dir [some "sub"] 5),
  ("/srv/static/sub", .dir [] 9)]

/-- Witness for C7: requesting the empty directory `/sub` yields the
placeholder listing page. -/
theorem C7_directory_listing_witness :
    (handle_request fsC7 (strToBytes "GET /sub HTTP/1.0\r\n\r\n") "/srv/static" []).1
      = wireResponse "200 OK" false (html_boilerplate ("Index of: " ++ "/sub")
          (if (([] : List (Option String)).filterMap id) = [] then "<p>It\x27s empty.</p>"
           else joinWithSep "\n\n\t\t\t<br/>\n\n\t\t\t"
             ((([] : List (Option String)).filterMap id).map
               (fun entry => "<a href=\"" ++ "/sub" ++ "/" ++ entry ++ "\">" ++ entry ++ "</a>")))) :=
  C7_directory_listing fsC7 (strToBytes "GET /sub HTTP/1.0\r\n\r\n") "/srv/static" []
    "/sub" "/srv/static/sub" [] 9
    (by decide) (by decide) (by decide) (by decide) (by decide) (by decide) (by decide)

/- ## C2: repeated request served from cache -/

/-- Did the cache lookup produce a hit? -/
def isCacheHit : Except IOErrorKind (Option (List Nat)) → Bool
  | .ok (some _) => true
  | _ => false

lemma prevent_events_no_loader (fs : FS) (b p : String) :
    (prevent_directory_transversal fs b p).2.filter isLoaderEvent = [] := by
  simp only [prevent_directory_transversal]
  repeat' split
  all_goals simp [isLoaderEvent]

lemma assocLookup_insert {κ α : Type} [DecidableEq κ] (m : List (κ × α)) (k : κ) (v : α) :
    assocLookup (assocInsert m k v) k = some v := by
  simp [assocInsert, assocLookup]

/-- C2: two consecutive requests for a valid path with no intervening
modification give identical responses; the second is served from the
cache (its lookup is a hit) and its system-call trace contains no
Content-Loader call — no file read or directory enumeration. -/
theorem C2_second_request_cached (fs : FS) (data : List Nat) (base : String) (caches : CacheMap)
    (path full_path : String) (t : Nat) (body : List Nat)
    (hparse : parse_request data = .ok path)
    (hresolve : (prevent_directory_transversal fs base path).1 = .ok full_path)
    (hstat : (get_modified_timestamp fs full_path).1 = .ok t)
    (hload : (get_content fs full_path path).1 = .ok body) :
    (handle_request fs data base (handle_request fs data base caches).2.1).1
        = (handle_request fs data base caches).1
    ∧ (handle_request fs data base (handle_request fs data base caches).2.1).2.2.filter
        isLoaderEvent = []
    ∧ isCacheHit (get_content_from_cache fs (handle_request fs data base caches).2.1
        full_path).1 = true := by
  obtain ⟨ev1, hres2⟩ : ∃ ev, prevent_directory_transversal fs base path = (.ok full_path, ev) :=
    ⟨_, pair_eta_fst _ _ hresolve⟩
  obtain ⟨ev4, hst2⟩ : ∃ ev, get_modified_timestamp fs full_path = (.ok t, ev) :=
    ⟨_, pair_eta_fst _ _ hstat⟩
  obtain ⟨ev3, hld2⟩ : ∃ ev, get_content fs full_path path = (.ok body, ev) :=
    ⟨_, pair_eta_fst _ _ hload⟩
  have hev1 : ev1.filter isLoaderEvent = [] := by
    have h := prevent_events_no_loader fs base path
    rw [hres2] at h
    exact h
  have hev4 : ev4 = [.statCall full_path] := by
    have h : (get_modified_timestamp fs full_path).2 = [.statCall full_path] := rfl
    rw [hst2] at h
    exact h
  have main : ∀ c1 b1 tr1,
      handle_request fs data base caches = (wireResponse "200 OK" false b1, c1, tr1) →
      assocLookup c1 full_path = some ⟨b1, t⟩ →
      ((handle_request fs data base (handle_request fs data base caches).2.1).1
          = (handle_request fs data base caches).1
       ∧ (handle_request fs data base (handle_request fs data base caches).2.1).2.2.filter
           isLoaderEvent = []
       ∧ isCacheHit (get_content_from_cache fs (handle_request fs data base caches).2.1
           full_path).1 = true) := by
    intro c1 b1 tr1 h1 hlk1
    have hgc : get_content_from_cache fs c1 full_path = (.ok (some b1), c1, ev4) := by
      simp [get_content_from_cache, hlk1, hst2]
    have h2 : handle_request fs data base c1
        = (wireResponse "200 OK" false b1, c1, ev1 ++ ev4) := by
      simp [handle_request, hparse, hres2, hgc, build_response_wire_none]
    rw [h1]
    dsimp only
    refine ⟨by rw [h2], ?_, by rw [hgc]; rfl⟩
    rw [h2]
    dsimp only
    simp [List.filter_append, hev1, hev4, isLoaderEvent]
  rcases hlk : assocLookup caches full_path with _ | entry
  · have hgc1 : get_content_from_cache fs caches full_path = (.ok none, caches, []) := by
      simp [get_content_from_cache, hlk]
    have h1 : handle_request fs data base caches
        = (wireResponse "200 OK" false body, assocInsert caches full_path ⟨body, t⟩,
           ev1 ++ ev3 ++ ev4) := by
      simp [handle_request, hparse, hres2, hgc1, hld2, hst2, build_response_wire_none]
    exact main _ _ _ h1 (assocLookup_insert _ _ _)
  · rcases entry with ⟨c0, ts0⟩
    by_cases hts : ts0 = t
    · subst hts
      have hgc1 : get_content_from_cache fs caches full_path
          = (.ok (some c0), caches, ev4) := by
        simp [get_content_from_cache, hlk, hst2]
      have h1 : handle_request fs data base caches
          = (wireResponse "200 OK" false c0, caches, ev1 ++ ev4) := by
        simp [handle_request, hparse, hres2, hgc1, build_response_wire_none]
      exact main _ _ _ h1 hlk
    · have hgc1 : get_content_from_cache fs caches full_path = (.ok none, caches, ev4) := by
        simp [get_content_from_cache, hlk, hst2, hts]
      have h1 : handle_request fs data base caches
          = (wireResponse "200 OK" false body, assocInsert caches full_path ⟨body, t⟩,
             ev1 ++ ev4 ++ ev3 ++ ev4) := by
        simp [handle_request, hparse, hres2, hgc1, hld2, hst2, build_response_wire_none]
      exact main _ _ _ h1 (assocLookup_insert _ _ _)

/-- A filesystem whose `index.html` holds "hi" with timestamp 7. -/
def fsC2 : FS := mkFS [("/srv/static", .dir [some "index.html"] 5),
  ("/srv/static/index.html", .file [104, 105] 7)]

/-- Witness for C2: requesting `/` twice on an unchanged filesystem
gives identical responses; the second request is a cache hit whose
trace holds no loader call. -/
theorem C2_second_request_cached_witness :
    (handle_request fsC2 (strToBytes "GET / HTTP/1.0\r\n\r\n") "/srv/static"
        (handle_request fsC2 (strToBytes "GET / HTTP/1.0\r\n\r\n") "/srv/static" []).2.1).1
        = (handle_request fsC2 (strToBytes "GET / HTTP/1.0\r\n\r\n") "/srv/static" []).1
    ∧ (handle_request fsC2 (strToBytes "GET / HTTP/1.0\r\n\r\n") "/srv/static"
        (handle_request fsC2 (strToBytes "GET / HTTP/1.0\r\n\r\n") "/srv/static"
          []).2.1).2.2.filter isLoaderEvent = []
    ∧ isCacheHit (get_content_from_cache fsC2
        (handle_request fsC2 (strToBytes "GET / HTTP/1.0\r\n\r\n") "/srv/static" []).2.1
        "/srv/static/index.html").1 = true :=
  C2_second_request_cached fsC2 (strToBytes "GET / HTTP/1.0\r\n\r\n") "/srv/static" []
    "/" "/srv/static/index.html" 7 [104, 105]
    (by decide) (by decide) (by decide) (by decide)

/- ## C9: empty second token serves index.html -/

/-- C9: a request line whose second space-delimited field is empty (as
in `GET  HTTP/1.0`) parses successfully to the empty path instead of
failing, and the pipeline then serves `index.html` from the root rather
than answering 400. -/
theorem C9_empty_path_serves_index (fs : FS) (base : String) (caches : CacheMap)
    (base_path full_path : String) (t : Nat) (body : List Nat)
    (hbase : fs.canonicalize base = .ok base_path)
    (hfull : fs.canonicalize (joinPath base_path "index.html") = .ok full_path)
    (hpre : pathStartsWith full_path base_path = true)
    (hnocache : assocLookup caches full_path = none)
    (hstat : (get_modified_timestamp fs full_path).1 = .ok t)
    (hload : (get_content fs full_path "").1 = .ok body) :
    parse_request (strToBytes "GET  HTTP/1.0\r\n\r\n") = .ok ""
    ∧ (handle_request fs (strToBytes "GET  HTTP/1.0\r\n\r\n") base caches).1
        = wireResponse "200 OK" false body := by
  have hparse : parse_request (strToBytes "GET  HTTP/1.0\r\n\r\n") = .ok "" := by decide
  obtain ⟨ev4, hst2⟩ : ∃ ev, get_modified_timestamp fs full_path = (.ok t, ev) :=
    ⟨_, pair_eta_fst _ _ hstat⟩
  obtain ⟨ev3, hld2⟩ : ∃ ev, get_content fs full_path "" = (.ok body, ev) :=
    ⟨_, pair_eta_fst _ _ hload⟩
  have hres : prevent_directory_transversal fs base ""
      = (.ok full_path,
         [.canonicalizeCall base, .canonicalizeCall (joinPath base_path "index.html")]) := by
    have htrim : trimStartSlashes "" = "" := by decide
    simp [prevent_directory_transversal, hbase, htrim, hfull, hpre]
  have hgc : get_content_from_cache fs caches full_path = (.ok none, caches, []) := by
    simp [get_content_from_cache, hnocache]
  exact ⟨hparse,
    by simp [handle_request, hparse, hres, hgc, hld2, hst2, build_response_wire_none]⟩

/-- A filesystem whose root holds `index.html` with content "hi". -/
def fsC9 : FS := mkFS [("/srv/static", .dir [some "index.html"] 5),
  ("/srv/static/index.html", .file [104, 105] 7)]

/-- Witness for C9: `GET  HTTP/1.0` (empty second field) parses to the
empty path and is answered with the contents of `index.html`. -/
theorem C9_empty_path_serves_index_witness :
    parse_request (strToBytes "GET  HTTP/1.0\r\n\r\n") = .ok ""
    ∧ (handle_request fsC9 (strToBytes "GET  HTTP/1.0\r\n\r\n") "/srv/static" []).1
        = wireResponse "200 OK" false [104, 105] :=
  C9_empty_path_serves_index fsC9 "/srv/static" [] "/srv/static" "/srv/static/index.html"
    7 [104, 105] (by decide) (by decide) (by decide) (by decide) (by decide) (by decide)
